import Mathlib

/-!
Verification of the log-analyzer visualization pipeline.

The development shallowly embeds the Python sources:
  * `src/src/config.py`     — configuration records and `load_config`
  * `src/src/visualizer.py` — catalog preprocessing, table building,
    figure construction and `_save_figure`
  * `src/main.py`           — the CLI entry point with its try/except

Python dictionaries preserve insertion order, so a category→messages
mapping is embedded as an association list `List (String × List String)`.
Machine details that the claims do not touch (plotly's internal figure
representation, float constants such as the pie hole radius) are carried
as opaque-but-pure data; the external rendering functions `write_html` /
`write_image` are parameters of the pipeline, as the spec treats the
charting engine as an external collaborator.
-/

namespace LogAnalyzer

/-- The character `{` (written by code point to keep string handling uniform). -/
def braceChar : Char := Char.ofNat 123

/-- Python `str.strip()` whitespace, modelled over the ASCII whitespace
characters (space, tab, newline, vertical tab, form feed, carriage return). -/
def isPySpace (c : Char) : Bool :=
  c = ' ' || c = '\t' || c = '\n' || c = Char.ofNat 11 || c = Char.ofNat 12 || c = '\r'

/-- Python `msg.split('\x7b')[0]`: the characters preceding the first `\x7b`. -/
def splitHead (l : List Char) : List Char :=
  l.takeWhile (fun c => c ≠ braceChar)

/-- Python `str.strip()`: drop whitespace from the left, then from the right. -/
def pyStrip (l : List Char) : List Char :=
  (l.dropWhile isPySpace).rdropWhile isPySpace

/-- One message of `_preprocess_logs`: `msg.split('\x7b')[0].strip()`
(visualizer.py line 38). -/
def preprocessMsg (s : String) : String :=
  ⟨pyStrip (splitHead s.data)⟩

/-- A category→messages mapping (Python dict, insertion ordered). -/
abbrev Catalog := List (String × List String)

/-- `LogVisualizer._preprocess_logs` (visualizer.py lines 26–40): the dict
comprehension mapping every message of every category through
`msg.split('\x7b')[0].strip()`. -/
def preprocessLogs (logs : Catalog) : Catalog :=
  logs.map (fun p => (p.1, p.2.map preprocessMsg))

/-- Per-category counts of the pie chart, `create_error_distribution`
(visualizer.py lines 60–63): `{category: len(messages) for ...}`. -/
def errorCounts (processed : Catalog) : List (String × Nat) :=
  processed.map (fun p => (p.1, p.2.length))

/-- A severity total of `create_severity_comparison` (visualizer.py lines
87–88): `sum(len(msgs) for msgs in logs.values())`. -/
def severityTotal (processed : Catalog) : Nat :=
  (processed.map (fun p => p.2.length)).sum

/-- One row of the detailed-analysis table: (Category, Severity, Count). -/
structure Row where
  category : String
  severity : String
  count : Nat
  deriving DecidableEq, Repr

/-- `LogVisualizer._prepare_detailed_analysis_data` (visualizer.py lines
131–156): start from an empty list, append one row per error category,
then one row per warning category. -/
def prepareDetailedAnalysisData (errs warns : Catalog) : List Row :=
  let data := errs.foldl (fun d p => d ++ [⟨p.1, "ERROR", p.2.length⟩]) []
  warns.foldl (fun d p => d ++ [⟨p.1, "WARNING", p.2.length⟩]) data

/-- Flattening of `create_error_histogram` / `create_warning_histogram`
(visualizer.py lines 160–162): `messages.extend(msgs)` over the values. -/
def flattenMessages (processed : Catalog) : List String :=
  processed.foldl (fun acc p => acc ++ p.2) []

/-! ### Helper lemmas about stripping and the loops -/

theorem dropWhile_of_head_not {p : α → Bool} {l : List α}
    (h : ∀ hl : 0 < l.length, ¬p (l.get ⟨0, hl⟩)) :
    l.dropWhile p = l :=
  List.dropWhile_eq_self_iff.mpr h

/-- Left-stripping is preserved by right-stripping: `rdropWhile` takes a
prefix, and a list whose head fails `p` keeps failing `p` at the head. -/
theorem dropWhile_rdropWhile {p : α → Bool} {l : List α}
    (h : l.dropWhile p = l) :
    (l.rdropWhile p).dropWhile p = l.rdropWhile p := by
  rcases List.rdropWhile_prefix p l with ⟨t, ht⟩
  cases hr : l.rdropWhile p with
  | nil => simp
  | cons a r =>
    rw [hr] at ht
    subst ht
    rw [List.cons_append] at h
    by_cases hpa : p a = true
    · exfalso
      rw [List.dropWhile_cons, if_pos hpa] at h
      have hle := (List.dropWhile_sublist (l := r ++ t) p).length_le
      rw [h] at hle
      simp at hle
    · rw [List.dropWhile_cons, if_neg hpa]

/-- `pyStrip` is idempotent. -/
theorem pyStrip_idem (l : List Char) : pyStrip (pyStrip l) = pyStrip l := by
  unfold pyStrip
  rw [dropWhile_rdropWhile (List.dropWhile_idempotent _ _), List.rdropWhile_idempotent]

/-- Every character surviving `pyStrip` was in the input. -/
theorem mem_of_mem_pyStrip {c : Char} {l : List Char} (h : c ∈ pyStrip l) :
    c ∈ l := by
  unfold pyStrip at h
  rcases List.rdropWhile_prefix isPySpace (l.dropWhile isPySpace) with ⟨t, ht⟩
  have h1 : c ∈ l.dropWhile isPySpace := by
    rw [← ht]; exact List.mem_append_left _ h
  exact (List.dropWhile_sublist _).subset h1

/-- Characters of `splitHead l` are not the brace and lie in `l`. -/
theorem mem_splitHead {c : Char} {l : List Char} (h : c ∈ splitHead l) :
    c ∈ l ∧ c ≠ braceChar := by
  refine ⟨(List.takeWhile_sublist _).subset h, ?_⟩
  have := List.mem_takeWhile_imp h
  simpa using this

/-- `splitHead` leaves a brace-free list unchanged. -/
theorem splitHead_eq_self {l : List Char} (h : ∀ c ∈ l, c ≠ braceChar) :
    splitHead l = l :=
  List.takeWhile_eq_self_iff.mpr (by simpa using h)

/-- The preprocessed message contains no brace. -/
theorem preprocessMsg_no_brace (s : String) :
    ∀ c ∈ (preprocessMsg s).data, c ≠ braceChar := by
  intro c hc
  have h1 : c ∈ splitHead s.data := mem_of_mem_pyStrip hc
  exact (mem_splitHead h1).2

/-- Preprocessing a message is idempotent. -/
theorem preprocessMsg_idem (s : String) :
    preprocessMsg (preprocessMsg s) = preprocessMsg s := by
  unfold preprocessMsg
  have h1 : splitHead (pyStrip (splitHead s.data)) = pyStrip (splitHead s.data) := by
    apply splitHead_eq_self
    intro c hc
    exact (mem_splitHead (mem_of_mem_pyStrip hc)).2
  apply String.ext
  simpa [h1] using pyStrip_idem (splitHead s.data)

/-- The append-one-row fold of the Python loops, in closed form. -/
theorem foldl_append_map (f : α → β) (l : List α) (init : List β) :
    l.foldl (fun d p => d ++ [f p]) init = init ++ l.map f := by
  induction l generalizing init with
  | nil => simp
  | cons a t ih => simp [ih, List.append_assoc]

/-- The extend fold of the histogram loops, in closed form. -/
theorem foldl_extend (f : α → List β) (l : List α) (init : List β) :
    l.foldl (fun acc p => acc ++ f p) init = init ++ (l.map f).flatten := by
  induction l generalizing init with
  | nil => simp
  | cons a t ih => simp [ih, List.append_assoc]

/-- The table builder equals one row per error category followed by one row
per warning category. -/
theorem prepareDetailedAnalysisData_eq (errs warns : Catalog) :
    prepareDetailedAnalysisData errs warns =
      errs.map (fun p => ⟨p.1, "ERROR", p.2.length⟩) ++
      warns.map (fun p => ⟨p.1, "WARNING", p.2.length⟩) := by
  unfold prepareDetailedAnalysisData
  rw [foldl_append_map, foldl_append_map]
  simp

/-! ### Configuration and environment (config.py, and the OS world) -/

/-- Python exceptions the program can meet: `FileNotFoundError` from `open`,
`PermissionError` from writing into an unwritable directory. `str(e)` of each
is modelled in `pyErrStr`. -/
inductive PyError where
  | fileNotFound (path : String)
  | permission (path : String)
  deriving DecidableEq, Repr

/-- Python `str(e)` for the two exception kinds. -/
def pyErrStr : PyError → String
  | .fileNotFound p => "[Errno 2] No such file or directory: '" ++ p ++ "'"
  | .permission p => "[Errno 13] Permission denied: '" ++ p ++ "'"

/-- Discrimination used by `except FileNotFoundError` in main.py line 58. -/
def PyError.isFileNotFound : PyError → Bool
  | .fileNotFound _ => true
  | .permission _ => false

/-- `VisualizationConfig` (config.py lines 11–16); the dicts are modelled as
total lookup functions (missing-key errors are outside the claims). -/
structure VisualizationConfig where
  colors : String → String
  titles : String → String
  labels : String → String

/-- `OutputConfig` (config.py lines 18–23). -/
structure OutputConfig where
  save_plots : Bool
  output_dir : String
  formats : List String

/-- `Config` (config.py lines 25–32); the two catalogs are always set by
`load_config`, so they are carried as plain fields. -/
structure Config where
  log_patterns_file : String
  visualization : VisualizationConfig
  output : OutputConfig
  error_logs : Catalog
  warning_logs : Catalog

/-- Parsed JSON content of a main configuration file. -/
structure RawConfigData where
  log_patterns_file : String
  visualization : VisualizationConfig
  output : OutputConfig

/-- Parsed JSON content of a log-patterns file: keys `error_logs` and
`warning_logs`. -/
structure PatternData where
  error_logs : Catalog
  warning_logs : Catalog

/-- A row of the detailed-analysis treemap or the other figures.
`Figure` captures exactly the data the source passes to the plotly
constructors; the float constants (pie hole 0.3, annotation position) are
fixed in the source and omitted. -/
inductive Figure where
  | pie (labels : List String) (values : List Nat) (title centerText : String)
  | bar (x : List String) (y : List Nat) (text : List Nat) (title xlab ylab : String)
  | treemap (rows : List Row) (title colorError colorWarning : String)
  | histogram (messages : List String) (color title xlab ylab : String)
  deriving DecidableEq, Repr

/-- The external world: parsed file contents by path (`none` = the `open`
call raises `FileNotFoundError`), per-directory writability, and the external
plotly renderers `write_html` / `write_image`, which the spec treats as an
external collaborator and which are modelled as pure functions of the
figure. -/
structure Env where
  configFiles : String → Option RawConfigData
  patternFiles : String → Option PatternData
  writableDirs : String → Bool
  renderHtml : Figure → String
  renderPng : Figure → String

/-- `load_config` (config.py lines 34–71): open and parse the main
configuration file, then open and parse the file named by its
`log_patterns_file` field; either `open` raises `FileNotFoundError` with the
respective path. The `mkdir` of the configuration directory (lines 49–51)
only touches directories, which the file map does not track. -/
def loadConfig (env : Env) (path : String) : Except PyError Config :=
  match env.configFiles path with
  | none => .error (.fileNotFound path)
  | some cd =>
    match env.patternFiles cd.log_patterns_file with
    | none => .error (.fileNotFound cd.log_patterns_file)
    | some lp =>
      .ok ⟨cd.log_patterns_file, cd.visualization, cd.output, lp.error_logs, lp.warning_logs⟩

/-- File contents by path; `none` means the file does not exist. -/
abbrev Files := String → Option String

/-- Writing (or overwriting) one file. -/
def writeFile (p c : String) (fs : Files) : Files :=
  fun q => if q = p then some c else fs q

/-! ### The visualizer (visualizer.py) -/

/-- `LogVisualizer.__init__` (visualizer.py lines 15–24). -/
structure LogVisualizer where
  config : Config
  processed_error_logs : Catalog
  processed_warning_logs : Catalog

/-- Construction of the visualizer: both catalogs preprocessed. -/
def mkVisualizer (cfg : Config) : LogVisualizer :=
  ⟨cfg, preprocessLogs cfg.error_logs, preprocessLogs cfg.warning_logs⟩

/-- Figure of `create_error_distribution` (visualizer.py lines 58–83). -/
def errorDistributionFigure (v : LogVisualizer) : Figure :=
  .pie ((errorCounts v.processed_error_logs).map Prod.fst)
    ((errorCounts v.processed_error_logs).map Prod.snd)
    (v.config.visualization.titles "error_distribution") "Errors"

/-- Figure of `create_severity_comparison` (visualizer.py lines 85–107). -/
def severityComparisonFigure (v : LogVisualizer) : Figure :=
  .bar ["ERROR", "WARNING"]
    [severityTotal v.processed_error_logs, severityTotal v.processed_warning_logs]
    [severityTotal v.processed_error_logs, severityTotal v.processed_warning_logs]
    (v.config.visualization.titles "severity_comparison")
    (v.config.visualization.labels "severity")
    (v.config.visualization.labels "message_count")

/-- Figure of `create_detailed_analysis` (visualizer.py lines 109–129). -/
def detailedAnalysisFigure (v : LogVisualizer) : Figure :=
  .treemap (prepareDetailedAnalysisData v.processed_error_logs v.processed_warning_logs)
    (v.config.visualization.titles "detailed_analysis")
    (v.config.visualization.colors "error")
    (v.config.visualization.colors "warning")

/-- Figure of `create_error_histogram` (visualizer.py lines 158–178). -/
def errorHistogramFigure (v : LogVisualizer) : Figure :=
  .histogram (flattenMessages v.processed_error_logs)
    (v.config.visualization.colors "error")
    (v.config.visualization.titles "error_histogram")
    (v.config.visualization.labels "error_message")
    (v.config.visualization.labels "frequency")

/-- Figure of `create_warning_histogram` (visualizer.py lines 180–200). -/
def warningHistogramFigure (v : LogVisualizer) : Figure :=
  .histogram (flattenMessages v.processed_warning_logs)
    (v.config.visualization.colors "warning")
    (v.config.visualization.titles "warning_histogram")
    (v.config.visualization.labels "warning_message")
    (v.config.visualization.labels "frequency")

/-- The five chart operations of main.py lines 39–43, in call order, each
with the fixed identifier passed to `_save_figure`. -/
def chartList (v : LogVisualizer) : List (String × Figure) :=
  [("error_distribution", errorDistributionFigure v),
   ("severity_comparison", severityComparisonFigure v),
   ("detailed_analysis", detailedAnalysisFigure v),
   ("error_histogram", errorHistogramFigure v),
   ("warning_histogram", warningHistogramFigure v)]

/-- The five fixed chart identifiers, in pipeline order. -/
def chartNames : List String :=
  ["error_distribution", "severity_comparison", "detailed_analysis",
   "error_histogram", "warning_histogram"]

/-- Path(output_dir) / f-string of name and format (visualizer.py line 52). -/
def mkPath (dir file : String) : String := dir ++ "/" ++ file

/-- One iteration of the format loop of `_save_figure` (visualizer.py lines
51–56): `html` uses `write_html`, `png` uses `write_image`, anything else is
skipped; a write into an unwritable directory raises `PermissionError` and
leaves the file map unchanged. -/
def writeFmt (env : Env) (cfg : Config) (fig : Figure) (name fmt : String)
    (fs : Files) : Option PyError × Files :=
  let path := mkPath cfg.output.output_dir (name ++ "." ++ fmt)
  if fmt = "html" then
    if env.writableDirs cfg.output.output_dir then
      (none, writeFile path (env.renderHtml fig) fs)
    else (some (.permission path), fs)
  else if fmt = "png" then
    if env.writableDirs cfg.output.output_dir then
      (none, writeFile path (env.renderPng fig) fs)
    else (some (.permission path), fs)
  else (none, fs)

/-- The format loop of `_save_figure`: stops at the first raised exception,
keeping the files already written. -/
def saveFigureLoop (env : Env) (cfg : Config) (fig : Figure) (name : String) :
    List String → Files → Option PyError × Files
  | [], fs => (none, fs)
  | fmt :: rest, fs =>
    match writeFmt env cfg fig name fmt fs with
    | (some e, fs') => (some e, fs')
    | (none, fs') => saveFigureLoop env cfg fig name rest fs'

/-- `_save_figure` (visualizer.py lines 42–56): the loop runs only when
`save_plots` is set. -/
def saveFigure (env : Env) (cfg : Config) (fig : Figure) (name : String)
    (fs : Files) : Option PyError × Files :=
  if cfg.output.save_plots then saveFigureLoop env cfg fig name cfg.output.formats fs
  else (none, fs)

/-- The chart calls of main.py lines 39–43: each `create_*` saves its figure
and then shows it; an exception propagates, skipping every later chart but
keeping files already written and figures already shown. -/
def runCharts (env : Env) (cfg : Config) :
    List (String × Figure) → Files → List String → Option PyError × Files × List String
  | [], fs, shown => (none, fs, shown)
  | (name, fig) :: rest, fs, shown =>
    match saveFigure env cfg fig name fs with
    | (some e, fs') => (some e, fs', shown)
    | (none, fs') => runCharts env cfg rest fs' (shown ++ [name])

/-- The whole visualization phase: build the visualizer from the loaded
configuration and run the five charts. -/
def runVisualizations (env : Env) (cfg : Config) (fs : Files) :
    Option PyError × Files × List String :=
  runCharts env cfg (chartList (mkVisualizer cfg)) fs []

/-! ### The entry point (main.py) -/

/-- Outcome of one program run: exit code, resulting files, lines printed
to standard output, figures shown (by chart identifier, in order). -/
structure RunResult where
  exitCode : Nat
  files : Files
  printed : List String
  shown : List String

/-- Status lines printed on the success path (main.py lines 46–56). -/
def successLines (cfg : Config) : List String :=
  ["\nAnalysis completed successfully!"] ++
  (if cfg.output.save_plots then
    ["\nGraphs have been saved in: " ++ cfg.output.output_dir,
     "Generated formats: " ++ String.intercalate ", " cfg.output.formats]
   else []) ++
  ["\nGenerated visualizations:",
   "1. Error distribution by category",
   "2. Message comparison by severity level",
   "3. Detailed analysis by category and severity",
   "4. Error message frequency histogram",
   "5. Warning message frequency histogram"]

/-- Message of the `except FileNotFoundError` handler (main.py line 59). -/
def fnfLine (e : PyError) : String :=
  "Error: Configuration file not found: " ++ pyErrStr e

/-- Message of the generic `except Exception` handler (main.py line 62). -/
def unexpectedLine (e : PyError) : String :=
  "Unexpected error: " ++ pyErrStr e

/-- `main` (main.py lines 22–65): load the configuration, run the five
charts, print status lines; `FileNotFoundError` anywhere in the try block is
reported with the configuration-file message and exit code 1, any other
exception with the generic message and exit code 1; otherwise exit code 0.
`ensure_output_dir` only creates the output directory, which the file map
does not track. -/
def mainRun (env : Env) (fs : Files) (configPath : String) : RunResult :=
  match loadConfig env configPath with
  | .error e =>
    if e.isFileNotFound then ⟨1, fs, [fnfLine e], []⟩
    else ⟨1, fs, [unexpectedLine e], []⟩
  | .ok cfg =>
    match runVisualizations env cfg fs with
    | (some e, fs', shown) =>
      if e.isFileNotFound then
        ⟨1, fs', ["Generating visualizations...", fnfLine e], shown⟩
      else
        ⟨1, fs', ["Generating visualizations...", unexpectedLine e], shown⟩
    | (none, fs', shown) =>
      ⟨0, fs', ["Generating visualizations..."] ++ successLines cfg, shown⟩

/-! ### Write lists: what a successful run puts on disk -/

/-- Files written by the format loop for one figure, in order. -/
def writesFor (env : Env) (cfg : Config) (fig : Figure) (name : String)
    (fmts : List String) : List (String × String) :=
  fmts.filterMap (fun fmt =>
    if fmt = "html" then
      some (mkPath cfg.output.output_dir (name ++ "." ++ fmt), env.renderHtml fig)
    else if fmt = "png" then
      some (mkPath cfg.output.output_dir (name ++ "." ++ fmt), env.renderPng fig)
    else none)

/-- Files written by `_save_figure` for one figure. -/
def figWrites (env : Env) (cfg : Config) (fig : Figure) (name : String) :
    List (String × String) :=
  if cfg.output.save_plots then writesFor env cfg fig name cfg.output.formats
  else []

/-- Files written by a list of chart operations. -/
def chartsWrites (env : Env) (cfg : Config) (charts : List (String × Figure)) :
    List (String × String) :=
  (charts.map (fun p => figWrites env cfg p.2 p.1)).flatten

/-- Applying a list of writes to the file map, in order. -/
def applyWrites (ws : List (String × String)) (fs : Files) : Files :=
  ws.foldl (fun fs w => writeFile w.1 w.2 fs) fs

/-- Last write to a given path in a write list, if any. -/
def findLastW : List (String × String) → String → Option String
  | [], _ => none
  | w :: ws, p =>
    match findLastW ws p with
    | some c => some c
    | none => if w.1 = p then some w.2 else none

theorem applyWrites_nil (fs : Files) : applyWrites [] fs = fs := rfl

theorem applyWrites_cons (w : String × String) (ws : List (String × String))
    (fs : Files) : applyWrites (w :: ws) fs = applyWrites ws (writeFile w.1 w.2 fs) := rfl

theorem applyWrites_append (ws₁ ws₂ : List (String × String)) (fs : Files) :
    applyWrites (ws₁ ++ ws₂) fs = applyWrites ws₂ (applyWrites ws₁ fs) := by
  unfold applyWrites
  exact List.foldl_append ..

/-- Lookup after a batch of writes: the last write to the path wins, a path
never written keeps its old content. -/
theorem applyWrites_apply (ws : List (String × String)) (fs : Files) (p : String) :
    applyWrites ws fs p =
      match findLastW ws p with
      | some c => some c
      | none => fs p := by
  induction ws generalizing fs with
  | nil => rfl
  | cons w ws ih =>
    rw [applyWrites_cons, ih]
    show _ = (match findLastW (w :: ws) p with | some c => some c | none => fs p)
    rcases h : findLastW ws p with _ | c
    · show writeFile w.1 w.2 fs p = _
      simp only [findLastW, h]
      by_cases hp : p = w.1
      · simp [writeFile, hp]
      · simp [writeFile, hp, Ne.symm hp]
    · simp only [findLastW, h]

theorem findLastW_eq_none {ws : List (String × String)} {p : String}
    (h : p ∉ ws.map Prod.fst) : findLastW ws p = none := by
  induction ws with
  | nil => rfl
  | cons w ws ih =>
    simp only [List.map_cons, List.mem_cons] at h
    push_neg at h
    simp only [findLastW, ih h.2]
    simp [Ne.symm h.1]

/-- A path no write touches keeps its old content. -/
theorem applyWrites_not_mem {ws : List (String × String)} {p : String}
    (h : p ∉ ws.map Prod.fst) (fs : Files) : applyWrites ws fs p = fs p := by
  rw [applyWrites_apply, findLastW_eq_none h]

/-- Applying the same batch of writes twice gives the same file map as
applying it once: a rerun overwrites every file with the same content. -/
theorem applyWrites_self (ws : List (String × String)) (fs : Files) :
    applyWrites ws (applyWrites ws fs) = applyWrites ws fs := by
  funext p
  simp only [applyWrites_apply]
  rcases h : findLastW ws p with _ | c <;> simp [h]

/-! ### A writable directory: the run succeeds and performs the writes -/

theorem saveFigureLoop_writable {env : Env} {cfg : Config}
    (h : env.writableDirs cfg.output.output_dir = true) (fig : Figure)
    (name : String) (fmts : List String) (fs : Files) :
    saveFigureLoop env cfg fig name fmts fs =
      (none, applyWrites (writesFor env cfg fig name fmts) fs) := by
  induction fmts generalizing fs with
  | nil => rfl
  | cons fmt rest ih =>
    simp only [saveFigureLoop, writeFmt, writesFor, List.filterMap_cons]
    by_cases h1 : fmt = "html"
    · simp only [if_pos h1, if_pos h]
      rw [applyWrites_cons]
      exact ih _
    · by_cases h2 : fmt = "png"
      · simp only [if_neg h1, if_pos h2, if_pos h]
        rw [applyWrites_cons]
        exact ih _
      · simp only [if_neg h1, if_neg h2]
        exact ih fs

theorem saveFigure_writable {env : Env} {cfg : Config}
    (h : env.writableDirs cfg.output.output_dir = true) (fig : Figure)
    (name : String) (fs : Files) :
    saveFigure env cfg fig name fs =
      (none, applyWrites (figWrites env cfg fig name) fs) := by
  unfold saveFigure figWrites
  by_cases hs : cfg.output.save_plots
  · rw [if_pos hs, if_pos hs, saveFigureLoop_writable h]
  · rw [if_neg hs, if_neg hs, applyWrites_nil]

/-- With a writable output directory every chart saves and shows: the run
raises nothing, performs exactly the charts' writes, and shows every chart
in order. -/
theorem runCharts_writable {env : Env} {cfg : Config}
    (h : env.writableDirs cfg.output.output_dir = true)
    (charts : List (String × Figure)) (fs : Files) (shown : List String) :
    runCharts env cfg charts fs shown =
      (none, applyWrites (chartsWrites env cfg charts) fs,
        shown ++ charts.map Prod.fst) := by
  induction charts generalizing fs shown with
  | nil => simp [runCharts, chartsWrites, applyWrites_nil]
  | cons c rest ih =>
    rcases c with ⟨name, fig⟩
    simp only [runCharts, saveFigure_writable h]
    rw [ih]
    unfold chartsWrites
    simp [applyWrites_append, List.append_assoc]

/-! ### Path disjointness and further save lemmas -/

theorem str_append_left_cancel {s a b : String} (h : s ++ a = s ++ b) : a = b := by
  apply String.ext
  have hd := congrArg String.data h
  rw [String.data_append, String.data_append] at hd
  exact List.append_cancel_left hd

theorem str_append_right_cancel {s a b : String} (h : a ++ s = b ++ s) : a = b := by
  apply String.ext
  have hd := congrArg String.data h
  rw [String.data_append, String.data_append] at hd
  exact List.append_cancel_right hd

theorem mkPath_inj {dir a b : String} (h : mkPath dir a = mkPath dir b) : a = b := by
  unfold mkPath at h
  exact str_append_left_cancel h

/-- With a Nodup write list, looking up a written path yields its content. -/
theorem applyWrites_nodup_mem {ws : List (String × String)}
    (hnd : (ws.map Prod.fst).Nodup) {p c : String} (hm : (p, c) ∈ ws) (fs : Files) :
    applyWrites ws fs p = some c := by
  induction ws generalizing fs with
  | nil => cases hm
  | cons w rest ih =>
    simp only [List.map_cons, List.nodup_cons] at hnd
    rw [applyWrites_cons]
    rcases List.mem_cons.mp hm with he | ht
    · cases he
      rw [applyWrites_not_mem hnd.1]
      simp [writeFile]
    · exact ih hnd.2 ht _

/-- With `save_plots` on and formats exactly html, the write list is one
html file per chart. -/
theorem chartsWrites_html (env : Env) {cfg : Config}
    (hs : cfg.output.save_plots = true) (hf : cfg.output.formats = ["html"])
    (charts : List (String × Figure)) :
    chartsWrites env cfg charts =
      charts.map (fun pr =>
        (mkPath cfg.output.output_dir (pr.1 ++ "." ++ "html"), env.renderHtml pr.2)) := by
  induction charts with
  | nil => rfl
  | cons c rest ih =>
    unfold chartsWrites at ih ⊢
    simp only [List.map_cons, List.flatten_cons, ih]
    unfold figWrites writesFor
    simp [hs, hf]

/-- Saving into an unwritable directory raises at the first html or png
format of the list, leaving the files unchanged. -/
theorem saveFigureLoop_unwritable {env : Env} {cfg : Config}
    (hw : env.writableDirs cfg.output.output_dir = false) (fig : Figure)
    (name : String) :
    ∀ fmts : List String, (∃ f ∈ fmts, f = "html" ∨ f = "png") → ∀ fs : Files,
      ∃ e : PyError, e.isFileNotFound = false ∧
        saveFigureLoop env cfg fig name fmts fs = (some e, fs) := by
  intro fmts
  induction fmts with
  | nil =>
    rintro ⟨f, hf, _⟩ fs
    cases hf
  | cons f rest ih =>
    rintro ⟨g, hg, hgp⟩ fs
    by_cases h1 : f = "html"
    · exact ⟨.permission (mkPath cfg.output.output_dir (name ++ "." ++ f)), rfl, by
        simp [saveFigureLoop, writeFmt, h1, hw]⟩
    · by_cases h2 : f = "png"
      · exact ⟨.permission (mkPath cfg.output.output_dir (name ++ "." ++ f)), rfl, by
          simp [saveFigureLoop, writeFmt, h1, h2, hw]⟩
      · have hgr : g ∈ rest := by
          rcases List.mem_cons.mp hg with he | h
          · subst he
            rcases hgp with h' | h'
            · exact absurd h' h1
            · exact absurd h' h2
          · exact h
        rcases ih ⟨g, hgr, hgp⟩ fs with ⟨e, he, heq⟩
        refine ⟨e, he, ?_⟩
        simp only [saveFigureLoop, writeFmt, if_neg h1, if_neg h2]
        exact heq

/-! ### Concrete data for witnesses and counterexamples -/

/-- A small visualization configuration with constant display text. -/
def demoViz : VisualizationConfig := ⟨fun _ => "c", fun _ => "t", fun _ => "l"⟩

/-- Output settings: save to directory `out` in format `html`. -/
def demoOut : OutputConfig := ⟨true, "out", ["html"]⟩

/-- Parsed content of a main configuration file. -/
def demoRaw : RawConfigData := ⟨"patterns.json", demoViz, demoOut⟩

/-- Parsed content of a log-patterns file. -/
def demoPatterns : PatternData :=
  ⟨[("A", ["m1 {x}", "m2"]), ("B", ["m3"])], [("C", ["w1"])]⟩

/-- The configuration `load_config` builds from the demo files. -/
def demoConfig : Config :=
  ⟨"patterns.json", demoViz, demoOut, demoPatterns.error_logs, demoPatterns.warning_logs⟩

/-- A world where every file exists and every directory is writable. -/
def demoEnv : Env :=
  ⟨fun _ => some demoRaw, fun _ => some demoPatterns, fun _ => true,
   fun _ => "HTML", fun _ => "PNG"⟩

/-- The demo world with an unwritable output directory. -/
def demoEnvUnwritable : Env :=
  ⟨fun _ => some demoRaw, fun _ => some demoPatterns, fun _ => false,
   fun _ => "HTML", fun _ => "PNG"⟩

/-- The demo world with no files at all. -/
def demoEnvNoFiles : Env :=
  ⟨fun _ => none, fun _ => none, fun _ => true, fun _ => "HTML", fun _ => "PNG"⟩

/-- The demo world where only the main configuration file exists. -/
def demoEnvNoPatterns : Env :=
  ⟨fun _ => some demoRaw, fun _ => none, fun _ => true, fun _ => "HTML", fun _ => "PNG"⟩

/-- An empty disk. -/
def emptyFiles : Files := fun _ => none

/-! ### Claim theorems -/

/-- C1: preprocessing keeps the keys of the mapping, replaces each message
by the whitespace-trimmed substring preceding its first brace, returns a
brace-free message unchanged apart from trimming, maps the example message
to its prefix, and (being a total function) never fails. -/
theorem C1_preprocessing (logs : Catalog) (m : String) (hm : braceChar ∉ m.data) :
    (preprocessLogs logs).map Prod.fst = logs.map Prod.fst ∧
    preprocessLogs logs = logs.map (fun p => (p.1, p.2.map preprocessMsg)) ∧
    preprocessMsg m = ⟨pyStrip m.data⟩ ∧
    preprocessMsg "X {y}" = "X" := by
  refine ⟨?_, rfl, ?_, by decide⟩
  · simp [preprocessLogs]
  · unfold preprocessMsg
    rw [splitHead_eq_self (fun c hc he => hm (he ▸ hc))]

/-- C1 witness: the theorem applied to a concrete catalog and the concrete
brace-free message "Hello". -/
theorem C1_witness :
    (preprocessLogs [("A", ["m1 {x}", "m2"])]).map Prod.fst =
        ([("A", ["m1 {x}", "m2"])] : Catalog).map Prod.fst ∧
    preprocessLogs [("A", ["m1 {x}", "m2"])] =
        ([("A", ["m1 {x}", "m2"])] : Catalog).map (fun p => (p.1, p.2.map preprocessMsg)) ∧
    preprocessMsg "Hello" = ⟨pyStrip "Hello".data⟩ ∧
    preprocessMsg "X {y}" = "X" :=
  C1_preprocessing [("A", ["m1 {x}", "m2"])] "Hello" (by decide)

/-- C2: the table builder yields exactly one (category, severity, count) row
per error category in catalog order, then one per warning category, the
count being the category's message count; on the example catalogs the rows
are (A,ERROR,2), (B,ERROR,1), (C,WARNING,1) in that order. -/
theorem C2_table_rows (errs warns : Catalog) :
    prepareDetailedAnalysisData errs warns =
      errs.map (fun p => ⟨p.1, "ERROR", p.2.length⟩) ++
      warns.map (fun p => ⟨p.1, "WARNING", p.2.length⟩) ∧
    prepareDetailedAnalysisData [("A", ["m1", "m2"]), ("B", ["m3"])] [("C", ["m4"])] =
      [⟨"A", "ERROR", 2⟩, ⟨"B", "ERROR", 1⟩, ⟨"C", "WARNING", 1⟩] :=
  ⟨prepareDetailedAnalysisData_eq errs warns, by decide⟩

/-- C6: the severity total of a catalog — computed by the bar chart on the
preprocessed catalog — equals the sum over all categories of the number of
messages in the category of the original catalog, and is 3 on the example. -/
theorem C6_severity_total (logs : Catalog) :
    severityTotal (preprocessLogs logs) = (logs.map (fun p => p.2.length)).sum ∧
    severityTotal [("A", ["m1", "m2"]), ("B", ["m3"])] = 3 := by
  constructor
  · unfold severityTotal preprocessLogs
    rw [List.map_map]
    congr 1
    apply List.map_congr_left
    intro p _
    simp
  · decide

/-- C7: every category appearing in the pie-chart counts or in a treemap row
is a key of the corresponding catalog, and its count is the length of the
preprocessed message list of that category. -/
theorem C7_chart_invariant (cfg : Config) :
    (∀ pr ∈ errorCounts (mkVisualizer cfg).processed_error_logs,
      pr.1 ∈ cfg.error_logs.map Prod.fst ∧
      ∃ ms, (pr.1, ms) ∈ preprocessLogs cfg.error_logs ∧ pr.2 = ms.length) ∧
    (∀ row ∈ prepareDetailedAnalysisData (mkVisualizer cfg).processed_error_logs
        (mkVisualizer cfg).processed_warning_logs,
      (row.severity = "ERROR" ∧ row.category ∈ cfg.error_logs.map Prod.fst ∧
        ∃ ms, (row.category, ms) ∈ preprocessLogs cfg.error_logs ∧ row.count = ms.length) ∨
      (row.severity = "WARNING" ∧ row.category ∈ cfg.warning_logs.map Prod.fst ∧
        ∃ ms, (row.category, ms) ∈ preprocessLogs cfg.warning_logs ∧
          row.count = ms.length)) := by
  constructor
  · intro pr hpr
    rcases List.mem_map.mp hpr with ⟨q, hq, rfl⟩
    refine ⟨?_, q.2, hq, rfl⟩
    rcases List.mem_map.mp hq with ⟨p, hp, rfl⟩
    exact List.mem_map.mpr ⟨p, hp, rfl⟩
  · intro row hrow
    rw [prepareDetailedAnalysisData_eq] at hrow
    rcases List.mem_append.mp hrow with h | h
    · left
      rcases List.mem_map.mp h with ⟨q, hq, rfl⟩
      refine ⟨rfl, ?_, q.2, hq, rfl⟩
      rcases List.mem_map.mp hq with ⟨p, hp, rfl⟩
      exact List.mem_map.mpr ⟨p, hp, rfl⟩
    · right
      rcases List.mem_map.mp h with ⟨q, hq, rfl⟩
      refine ⟨rfl, ?_, q.2, hq, rfl⟩
      rcases List.mem_map.mp hq with ⟨p, hp, rfl⟩
      exact List.mem_map.mpr ⟨p, hp, rfl⟩

/-- C7 witness: the invariant applied to a concrete configuration, at the
concrete pie entry ("A",2) and the concrete treemap row (A,ERROR,2). -/
theorem C7_witness :
    (("A", 2).fst ∈ (demoConfig.error_logs.map Prod.fst) ∧
      ∃ ms, (("A", 2).fst, ms) ∈ preprocessLogs demoConfig.error_logs ∧
        ("A", 2).snd = ms.length) ∧
    (((Row.mk "A" "ERROR" 2).severity = "ERROR" ∧
      (Row.mk "A" "ERROR" 2).category ∈ demoConfig.error_logs.map Prod.fst ∧
      ∃ ms, ((Row.mk "A" "ERROR" 2).category, ms) ∈ preprocessLogs demoConfig.error_logs ∧
        (Row.mk "A" "ERROR" 2).count = ms.length) ∨
    ((Row.mk "A" "ERROR" 2).severity = "WARNING" ∧
      (Row.mk "A" "ERROR" 2).category ∈ demoConfig.warning_logs.map Prod.fst ∧
      ∃ ms, ((Row.mk "A" "ERROR" 2).category, ms) ∈ preprocessLogs demoConfig.warning_logs ∧
        (Row.mk "A" "ERROR" 2).count = ms.length)) :=
  ⟨(C7_chart_invariant demoConfig).1 ("A", 2) (by decide),
   (C7_chart_invariant demoConfig).2 (Row.mk "A" "ERROR" 2) (by decide)⟩

/-- C9: preprocessing is idempotent on catalogs, because a preprocessed
message contains no brace and no leading or trailing whitespace. -/
theorem C9_preprocess_idempotent (logs : Catalog) (s : String) :
    preprocessLogs (preprocessLogs logs) = preprocessLogs logs ∧
    (∀ c ∈ (preprocessMsg s).data, c ≠ braceChar) ∧
    pyStrip (preprocessMsg s).data = (preprocessMsg s).data := by
  refine ⟨?_, preprocessMsg_no_brace s, ?_⟩
  · unfold preprocessLogs
    rw [List.map_map]
    apply List.map_congr_left
    intro p _
    simp [Function.comp, List.map_map, preprocessMsg_idem]
  · have h := preprocessMsg_idem s
    have h2 : preprocessMsg (preprocessMsg s) = ⟨pyStrip (preprocessMsg s).data⟩ := by
      show (⟨pyStrip (splitHead (preprocessMsg s).data)⟩ : String) = _
      rw [splitHead_eq_self (preprocessMsg_no_brace s)]
    rw [h2] at h
    exact congrArg String.data h

/-- C4: a missing configuration file yields exit code 1 with an error
message naming the missing file; a run whose try block completes yields exit
code 0 with the status lines; any exception from the chart phase yields exit
code 1 with the exception's message printed by the matching handler. -/
theorem C4_exit_codes (env : Env) (fs : Files) (path : String) :
    (env.configFiles path = none →
      mainRun env fs path = ⟨1, fs,
        ["Error: Configuration file not found: " ++
          ("[Errno 2] No such file or directory: '" ++ path ++ "'")], []⟩) ∧
    (∀ cfg fs' shown, loadConfig env path = .ok cfg →
      runVisualizations env cfg fs = (none, fs', shown) →
      mainRun env fs path =
        ⟨0, fs', ["Generating visualizations..."] ++ successLines cfg, shown⟩) ∧
    (∀ cfg e fs' shown, loadConfig env path = .ok cfg →
      runVisualizations env cfg fs = (some e, fs', shown) →
      mainRun env fs path = ⟨1, fs',
        ["Generating visualizations...",
          if e.isFileNotFound then fnfLine e else unexpectedLine e], shown⟩) := by
  refine ⟨?_, ?_, ?_⟩
  · intro h
    unfold mainRun loadConfig
    rw [h]
    rfl
  · intro cfg fs' shown hload hrun
    simp only [mainRun, hload, hrun]
  · intro cfg e fs' shown hload hrun
    simp only [mainRun, hload, hrun]
    cases hb : e.isFileNotFound <;> simp [hb]

/-- C4 witness: the theorem applied in a world with no files (missing
configuration), in the fully working demo world (success), and in the demo
world with an unwritable output directory (other uncaught failure). -/
theorem C4_witness :
    mainRun demoEnvNoFiles emptyFiles "config.json" = ⟨1, emptyFiles,
      ["Error: Configuration file not found: " ++
        ("[Errno 2] No such file or directory: '" ++ "config.json" ++ "'")], []⟩ ∧
    mainRun demoEnv emptyFiles "config.json" =
      ⟨0, (runVisualizations demoEnv demoConfig emptyFiles).2.1,
        ["Generating visualizations..."] ++ successLines demoConfig,
        (runVisualizations demoEnv demoConfig emptyFiles).2.2⟩ ∧
    mainRun demoEnvUnwritable emptyFiles "config.json" = ⟨1,
      (runVisualizations demoEnvUnwritable demoConfig emptyFiles).2.1,
      ["Generating visualizations...",
        if (PyError.permission
            (mkPath "out" ("error_distribution" ++ "." ++ "html"))).isFileNotFound then
          fnfLine (PyError.permission (mkPath "out" ("error_distribution" ++ "." ++ "html")))
        else
          unexpectedLine
            (PyError.permission (mkPath "out" ("error_distribution" ++ "." ++ "html")))],
      (runVisualizations demoEnvUnwritable demoConfig emptyFiles).2.2⟩ :=
  ⟨(C4_exit_codes demoEnvNoFiles emptyFiles "config.json").1 rfl,
   (C4_exit_codes demoEnv emptyFiles "config.json").2.1 demoConfig
     (runVisualizations demoEnv demoConfig emptyFiles).2.1
     (runVisualizations demoEnv demoConfig emptyFiles).2.2 rfl rfl,
   (C4_exit_codes demoEnvUnwritable emptyFiles "config.json").2.2 demoConfig
     (.permission (mkPath "out" ("error_distribution" ++ "." ++ "html")))
     (runVisualizations demoEnvUnwritable demoConfig emptyFiles).2.1
     (runVisualizations demoEnvUnwritable demoConfig emptyFiles).2.2 rfl rfl⟩

/-- C10: a configuration whose log_patterns_file does not exist makes
load_config raise the same FileNotFoundError as a missing main configuration
file, so main reports it with the configuration-file-not-found message and
exit code 1, not as a distinct log-patterns failure. -/
theorem C10_missing_patterns (env : Env) (fs : Files) (path : String)
    (cd : RawConfigData) (h1 : env.configFiles path = some cd)
    (h2 : env.patternFiles cd.log_patterns_file = none) :
    loadConfig env path = .error (.fileNotFound cd.log_patterns_file) ∧
    mainRun env fs path = ⟨1, fs,
      ["Error: Configuration file not found: " ++
        ("[Errno 2] No such file or directory: '" ++ cd.log_patterns_file ++ "'")],
      []⟩ := by
  have hl : loadConfig env path = .error (.fileNotFound cd.log_patterns_file) := by
    unfold loadConfig
    simp only [h1]
    rw [h2]
  refine ⟨hl, ?_⟩
  simp only [mainRun, hl]
  rfl

/-- C10 witness: the theorem applied in the demo world where only the main
configuration file exists. -/
theorem C10_witness :
    loadConfig demoEnvNoPatterns "config.json" =
      .error (.fileNotFound demoRaw.log_patterns_file) ∧
    mainRun demoEnvNoPatterns emptyFiles "config.json" = ⟨1, emptyFiles,
      ["Error: Configuration file not found: " ++
        ("[Errno 2] No such file or directory: '" ++ demoRaw.log_patterns_file ++ "'")],
      []⟩ :=
  C10_missing_patterns demoEnvNoPatterns emptyFiles "config.json" demoRaw rfl rfl

/-- C5: with `save_plots` on, a writable output directory and formats
exactly html, a run succeeds, and it writes exactly one file per chart,
at the chart's fixed identifier with extension `.html` under the output
directory, holding the rendered html; every other path is untouched. -/
theorem C5_html_outputs (env : Env) (cfg : Config) (fs : Files)
    (hw : env.writableDirs cfg.output.output_dir = true)
    (hs : cfg.output.save_plots = true)
    (hf : cfg.output.formats = ["html"]) :
    runVisualizations env cfg fs =
      (none, applyWrites (chartsWrites env cfg (chartList (mkVisualizer cfg))) fs,
        chartNames) ∧
    (chartsWrites env cfg (chartList (mkVisualizer cfg))).map Prod.fst =
      chartNames.map (fun n => mkPath cfg.output.output_dir (n ++ "." ++ "html")) ∧
    (∀ pr ∈ chartList (mkVisualizer cfg),
      applyWrites (chartsWrites env cfg (chartList (mkVisualizer cfg))) fs
        (mkPath cfg.output.output_dir (pr.1 ++ "." ++ "html")) =
        some (env.renderHtml pr.2)) ∧
    (∀ q, q ∉ (chartsWrites env cfg (chartList (mkVisualizer cfg))).map Prod.fst →
      applyWrites (chartsWrites env cfg (chartList (mkVisualizer cfg))) fs q = fs q) := by
  have hinj : Function.Injective
      (fun n => mkPath cfg.output.output_dir (n ++ "." ++ "html")) := by
    intro a b h
    exact str_append_right_cancel (str_append_right_cancel (mkPath_inj h))
  have hcw := chartsWrites_html env hs hf (chartList (mkVisualizer cfg))
  refine ⟨?_, ?_, ?_, ?_⟩
  · unfold runVisualizations
    rw [runCharts_writable hw, List.nil_append]
    rfl
  · rw [hcw, List.map_map]
    rfl
  · intro pr hpr
    apply applyWrites_nodup_mem
    · rw [hcw, List.map_map]
      show (chartNames.map
        (fun n => mkPath cfg.output.output_dir (n ++ "." ++ "html"))).Nodup
      exact List.Nodup.map hinj (by decide)
    · rw [hcw]
      exact List.mem_map.mpr ⟨pr, hpr, rfl⟩
  · intro q hq
    exact applyWrites_not_mem hq fs

/-- C5 witness: the theorem applied to the demo world, whose configuration
saves html into the writable directory `out`. -/
theorem C5_witness :
    runVisualizations demoEnv demoConfig emptyFiles =
      (none,
        applyWrites (chartsWrites demoEnv demoConfig (chartList (mkVisualizer demoConfig)))
          emptyFiles, chartNames) ∧
    (chartsWrites demoEnv demoConfig (chartList (mkVisualizer demoConfig))).map Prod.fst =
      chartNames.map (fun n => mkPath demoConfig.output.output_dir (n ++ "." ++ "html")) ∧
    (∀ pr ∈ chartList (mkVisualizer demoConfig),
      applyWrites (chartsWrites demoEnv demoConfig (chartList (mkVisualizer demoConfig)))
        emptyFiles (mkPath demoConfig.output.output_dir (pr.1 ++ "." ++ "html")) =
        some (demoEnv.renderHtml pr.2)) ∧
    (∀ q,
      q ∉ (chartsWrites demoEnv demoConfig (chartList (mkVisualizer demoConfig))).map
        Prod.fst →
      applyWrites (chartsWrites demoEnv demoConfig (chartList (mkVisualizer demoConfig)))
        emptyFiles q = emptyFiles q) :=
  C5_html_outputs demoEnv demoConfig emptyFiles rfl rfl rfl

/-- C8: with identical inputs, a fixed configuration and writable output,
the pipeline is deterministic and rerunning it leaves every output file
byte-identical: the first run exits 0, and a second run over the first run's
files prints the same lines and produces exactly the same file map. -/
theorem C8_deterministic (env : Env) (cfg : Config) (fs : Files) (path : String)
    (hload : loadConfig env path = .ok cfg)
    (hw : env.writableDirs cfg.output.output_dir = true)
    (hs : cfg.output.save_plots = true) :
    (mainRun env fs path).exitCode = 0 ∧
    (mainRun env (mainRun env fs path).files path).files = (mainRun env fs path).files ∧
    (mainRun env (mainRun env fs path).files path).printed =
      (mainRun env fs path).printed := by
  have hrun : ∀ g : Files, runVisualizations env cfg g =
      (none, applyWrites (chartsWrites env cfg (chartList (mkVisualizer cfg))) g,
        chartNames) := by
    intro g
    unfold runVisualizations
    rw [runCharts_writable hw, List.nil_append]
    rfl
  have hm : ∀ g : Files, mainRun env g path =
      ⟨0, applyWrites (chartsWrites env cfg (chartList (mkVisualizer cfg))) g,
        ["Generating visualizations..."] ++ successLines cfg, chartNames⟩ := by
    intro g
    simp only [mainRun, hload, hrun g]
  refine ⟨by rw [hm fs], ?_, ?_⟩
  · rw [hm fs, hm]
    exact applyWrites_self (chartsWrites env cfg (chartList (mkVisualizer cfg))) fs
  · rw [hm fs, hm]

/-- C8 witness: the theorem applied to the demo world and its
configuration. -/
theorem C8_witness :
    (mainRun demoEnv emptyFiles "config.json").exitCode = 0 ∧
    (mainRun demoEnv (mainRun demoEnv emptyFiles "config.json").files
      "config.json").files = (mainRun demoEnv emptyFiles "config.json").files ∧
    (mainRun demoEnv (mainRun demoEnv emptyFiles "config.json").files
      "config.json").printed = (mainRun demoEnv emptyFiles "config.json").printed :=
  C8_deterministic demoEnv demoConfig emptyFiles "config.json" rfl rfl rfl

/-- C3 counterexample: in the demo world with an unwritable output
directory, the run exits 1 after the first chart's save fails, but no chart
at all is rendered (`shown` is empty) and no later chart's file is saved —
so a chart's save failure does affect the remaining charts, which are
neither rendered nor saved. -/
theorem C3_counterexample :
    (mainRun demoEnvUnwritable emptyFiles "config.json").exitCode = 1 ∧
    (mainRun demoEnvUnwritable emptyFiles "config.json").shown = [] ∧
    (mainRun demoEnvUnwritable emptyFiles "config.json").files
      (mkPath "out" ("severity_comparison" ++ "." ++ "html")) = none ∧
    (mainRun demoEnvUnwritable emptyFiles "config.json").files
      (mkPath "out" ("warning_histogram" ++ "." ++ "html")) = none :=
  ⟨rfl, rfl, rfl, rfl⟩

/-- C3 amended: when the output directory is unwritable (and a writing
format is configured), the first chart's save raises, the failure is
reported to the caller — exit code 1 with the exception's message — and no
file is corrupted (the file map is unchanged); but the charts after the
failing save are not rendered or saved, because all five chart calls share
one try block in main. -/
theorem C3_amended (env : Env) (cfg : Config) (fs : Files) (path : String)
    (hload : loadConfig env path = .ok cfg)
    (hw : env.writableDirs cfg.output.output_dir = false)
    (hs : cfg.output.save_plots = true)
    (hf : ∃ f ∈ cfg.output.formats, f = "html" ∨ f = "png") :
    ∃ e : PyError, e.isFileNotFound = false ∧
      mainRun env fs path =
        ⟨1, fs, ["Generating visualizations...", "Unexpected error: " ++ pyErrStr e],
          []⟩ := by
  rcases saveFigureLoop_unwritable hw (errorDistributionFigure (mkVisualizer cfg))
      "error_distribution" cfg.output.formats hf fs with ⟨e, he, heq⟩
  refine ⟨e, he, ?_⟩
  have hrun : runVisualizations env cfg fs = (some e, fs, []) := by
    unfold runVisualizations chartList runCharts
    simp only [saveFigure, hs, if_true, heq]
  simp only [mainRun, hload, hrun, he]
  rfl

/-- C3 amended witness: the amended theorem applied to the demo world with
the unwritable output directory. -/
theorem C3_amended_witness :
    ∃ e : PyError, e.isFileNotFound = false ∧
      mainRun demoEnvUnwritable emptyFiles "config.json" =
        ⟨1, emptyFiles,
          ["Generating visualizations...", "Unexpected error: " ++ pyErrStr e], []⟩ :=
  C3_amended demoEnvUnwritable demoConfig emptyFiles "config.json" rfl rfl rfl
    ⟨"html", by decide, Or.inl rfl⟩

end LogAnalyzer
